import Mathlib

/-!
Verification development for the vue-camera-utility repository.

The definitions below are shallow embeddings of the TypeScript source:
pure functions become Lean functions on List Char / String / Rat, the
stateful capture-session logic of CameraView.vue becomes explicit state
passing on a SessionState record, and the cooperative barcode loops
become tick-indexed trace functions.  Platform capabilities (canvas
encoding, Date parsing, locale formatting, window dimensions, the
geolocation provider and the symbol detector) are passed in as explicit
parameters, mirroring the narrow interfaces the source consumes.
Numbers are modelled with Rat: the source computations at issue are
exact on rationals, so no floating point rounding is modelled.
-/

/-! ## Basic string machinery (models of JS String.includes and global replace) -/

/-- Model of: the pattern list is situated at the head of the second list. -/
def listStarts : List Char → List Char → Bool
  | [], _ => true
  | _ :: _, [] => false
  | p :: ps, c :: cs => p == c && listStarts ps cs

/-- Model of substring containment on character lists. -/
def listContains : List Char → List Char → Bool
  | pat, [] => listStarts pat []
  | pat, c :: cs => listStarts pat (c :: cs) || listContains pat cs

/-- Model of JS String.prototype.includes, as used on device labels and
placeholder format strings in the source. -/
def strIncludes (s pat : String) : Bool :=
  listContains pat.data s.data

/-- Fuel-indexed worker for global, non-overlapping, left-to-right literal
replacement, the behavior of JS String.replace with a global literal RegExp.
The fuel is always instantiated with the length of the subject string, which
suffices because every step consumes at least one character. -/
def replaceAllGo (pat rep : List Char) : Nat → List Char → List Char
  | 0, s => s
  | _ + 1, [] => []
  | n + 1, c :: cs =>
    if pat ≠ [] && listStarts pat (c :: cs) then
      rep ++ replaceAllGo pat rep n ((c :: cs).drop pat.length)
    else
      c :: replaceAllGo pat rep n cs

/-- Model of JS s.replace(new RegExp(pat), rep) with a global literal pattern. -/
def replaceAllStr (s pat rep : String) : String :=
  ⟨replaceAllGo pat.data rep.data s.data.length s.data⟩

/-- ASCII model of JS String.prototype.toLowerCase, as applied to device labels. -/
def jsToLowerChar (c : Char) : Char :=
  if 'A' ≤ c ∧ c ≤ 'Z' then Char.ofNat (c.toNat + 32) else c

/-- Lower-cases a label, modelling device.label.toLowerCase() in the source. -/
def toLowerStr (s : String) : String :=
  ⟨s.data.map jsToLowerChar⟩

/-- Model of n.toString().padStart(2, "0") for a natural number. -/
def pad2 (n : Nat) : String :=
  if n < 10 then "0" ++ toString n else toString n

/-- Model of s.slice(-2): the last two characters, or the whole string if shorter. -/
def sliceLast2 (s : String) : String :=
  ⟨s.data.drop (s.data.length - 2)⟩

/-- Left-pads a digit string with zeros up to width p. -/
def padLeftZeros (s : String) (p : Nat) : String :=
  ⟨List.replicate (p - s.data.length) '0'⟩ ++ s

/-! ## Numeric helpers -/

/-- Model of JS Math.round: floor of x + 1/2. -/
def jsRound (x : ℚ) : ℚ :=
  ((⌊x + 1 / 2⌋ : ℤ) : ℚ)

/-- Idealized model of JS Number.prototype.toFixed on a rational: round the
scaled magnitude half away from zero and print with exactly p decimals. -/
def ratToFixed (q : ℚ) (p : Nat) : String :=
  let scaled : ℤ := if 0 ≤ q then ⌊q * (10 : ℚ) ^ p + 1 / 2⌋ else -⌊(-q) * (10 : ℚ) ^ p + 1 / 2⌋
  let a : Nat := scaled.natAbs
  let ip : Nat := a / 10 ^ p
  let fp : Nat := a % 10 ^ p
  let sign : String := if scaled < 0 then "-" else ""
  if p = 0 then sign ++ toString ip
  else sign ++ toString ip ++ "." ++ padLeftZeros (toString fp) p

/-! ## DMS conversion (convertToDMS in src/unnamed/part_006, lines 614 to 626) -/

/-- degrees = Math.floor(Math.abs(coord)) -/
def dmsDegrees (c : ℚ) : ℤ := ⌊|c|⌋

/-- minutesNotTruncated = (absolute - degrees) * 60 -/
def dmsMinutesNT (c : ℚ) : ℚ := (|c| - (dmsDegrees c : ℚ)) * 60

/-- minutes = Math.floor(minutesNotTruncated) -/
def dmsMinutes (c : ℚ) : ℤ := ⌊dmsMinutesNT c⌋

/-- seconds = Math.floor((minutesNotTruncated - minutes) * 60) -/
def dmsSeconds (c : ℚ) : ℤ := ⌊(dmsMinutesNT c - (dmsMinutes c : ℚ)) * 60⌋

/-- direction = lat: coord >= 0 ? N : S; lng: coord >= 0 ? E : W -/
def dmsDirection (c : ℚ) (isLat : Bool) : String :=
  if isLat then (if 0 ≤ c then "N" else "S") else (if 0 ≤ c then "E" else "W")

/-- The digits part of the DMS string: degrees, minutes, seconds with their
separators, everything before the hemisphere letter. -/
def dmsBody (c : ℚ) : String :=
  toString (dmsDegrees c) ++ "\xb0 " ++ toString (dmsMinutes c) ++ "\x27 "
    ++ toString (dmsSeconds c) ++ "\x22 "

/-- Embedding of convertToDMS: the template literal of the source assembles
the degree, minute and second digits followed by the hemisphere letter. -/
def convertToDMS (c : ℚ) (isLat : Bool) : String :=
  dmsBody c ++ dmsDirection c isLat

/-! ## Unit converter (convertElementSizeToPixels in src/unnamed/part_006,
lines 450 to 467).  The source reads window.innerHeight and window.innerWidth
globals for the viewport units; the embedding passes the window dimensions
explicitly. -/

inductive CSSUnit
  | px
  | em
  | rem
  | pct
  | vh
  | vw
deriving DecidableEq, Repr

structure ElementSize where
  unit : CSSUnit
  value : ℚ
deriving DecidableEq, Repr

structure WindowDims where
  innerWidth : ℚ
  innerHeight : ℚ
deriving DecidableEq, Repr

/-- Embedding of convertElementSizeToPixels.  The TypeScript switch has a
default branch returning size.value for unit strings outside CSSUnit; the
CSSUnit type of the source is closed, so the embedding enumerates exactly
its six constructors. -/
def convertElementSizeToPixels (win : WindowDims) (size : ElementSize) (referenceDimension : ℚ) : ℚ :=
  match size.unit with
  | .px => size.value
  | .pct => size.value / 100 * referenceDimension
  | .em => size.value * 16
  | .rem => size.value * 16
  | .vh => size.value / 100 * win.innerHeight
  | .vw => size.value / 100 * win.innerWidth

/-! ## Date formatting (formatDate in src/unnamed/part_006, lines 581 to 606).
Date objects are modelled by their getter values; monthIndex mirrors the
zero-based getMonth. -/

structure DateRec where
  year : Nat
  monthIndex : Nat
  day : Nat
  hours : Nat
  minutes : Nat
  seconds : Nat
deriving DecidableEq, Repr

/-- Model of (date.getHours() % 12 || 12). -/
def hour12 (h : Nat) : Nat :=
  if h % 12 = 0 then 12 else h % 12

/-- Embedding of formatDate: Object.entries iterates the token table in
insertion order, and each entry performs a global literal replacement. -/
def formatDate (d : DateRec) (format : String) : String :=
  let toks : List (String × String) :=
    [ ("YYYY", toString d.year)
    , ("YY", sliceLast2 (toString d.year))
    , ("MM", pad2 (d.monthIndex + 1))
    , ("M", toString (d.monthIndex + 1))
    , ("DD", pad2 d.day)
    , ("D", toString d.day)
    , ("HH", pad2 d.hours)
    , ("H", toString d.hours)
    , ("hh", pad2 (hour12 d.hours))
    , ("h", toString (hour12 d.hours))
    , ("mm", pad2 d.minutes)
    , ("m", toString d.minutes)
    , ("ss", pad2 d.seconds)
    , ("s", toString d.seconds)
    , ("A", if d.hours < 12 then "AM" else "PM")
    , ("a", if d.hours < 12 then "am" else "pm") ]
  toks.foldl (fun r tv => replaceAllStr r tv.1 tv.2) format

/-- Platform capabilities consumed by the timestamp placeholder: new Date(s)
parsing of the ISO string and Date.prototype.toLocaleString. -/
structure DatePlatform where
  parse : String → DateRec
  locale : DateRec → String

/-! ## Photo metadata (PhotoMetadata and Coordinate in the types module).
Optional numeric fields are Option Rat; the JS falsiness checks of the
source treat undefined and 0 alike, which the embedding reproduces. -/

structure Coordinate where
  latitude : Option ℚ
  longitude : Option ℚ
deriving DecidableEq, Repr

structure PhotoMetadata where
  timestamp : String
  coordinate : Option Coordinate
  barcode : Option String
  caption : Option String
deriving DecidableEq, Repr

/-! ## Metadata template engine (injectMetadataInfo in src/unnamed/part_006,
lines 475 to 573).  The placeholder grammar of the source regex is
two opening braces, a nonempty run of name characters, an optional colon
followed by a nonempty run of characters other than a closing brace, and
two closing braces; String.replace walks the line left to right, trying a
match at each position and advancing one character on failure. -/

def lbraceChar : Char := Char.ofNat 123

def rbraceChar : Char := Char.ofNat 125

/-- The character class of the placeholder type name in the source regex. -/
def isNameChar (c : Char) : Bool :=
  ('a' ≤ c && c ≤ 'z') || ('A' ≤ c && c ≤ 'Z') || ('0' ≤ c && c ≤ '9') || c == '_' || c == '-'

/-- A parsed line is a sequence of literal characters and placeholders. -/
inductive Seg
  | lit (c : Char)
  | ph (ty : String) (fmt : Option String)
deriving DecidableEq, Repr

/-- Attempts the placeholder regex match at the head of the character list,
returning the type, the optional format, and the rest of the input. -/
def matchPH (s : List Char) : Option (String × Option String × List Char) :=
  match s with
  | c1 :: c2 :: rest =>
    if c1 = lbraceChar ∧ c2 = lbraceChar then
      let name := rest.takeWhile isNameChar
      let rest1 := rest.dropWhile isNameChar
      if name = [] then none
      else
        match rest1 with
        | d1 :: d2 :: rest2 =>
          if d1 = rbraceChar ∧ d2 = rbraceChar then some (⟨name⟩, none, rest2)
          else if d1 = ':' then
            let f := (d2 :: rest2).takeWhile (fun c => c ≠ rbraceChar)
            let rest3 := (d2 :: rest2).dropWhile (fun c => c ≠ rbraceChar)
            if f = [] then none
            else
              match rest3 with
              | e1 :: e2 :: rest4 =>
                if e1 = rbraceChar ∧ e2 = rbraceChar then some (⟨name⟩, some ⟨f⟩, rest4)
                else none
              | _ => none
          else none
        | _ => none
    else none
  | _ => none

/-- Fuel-indexed scan of one line into segments; the fuel is instantiated
with the line length, which suffices because each step consumes at least
one character. -/
def parseSegs : Nat → List Char → List Seg
  | 0, _ => []
  | _ + 1, [] => []
  | n + 1, c :: cs =>
    match matchPH (c :: cs) with
    | some (ty, fmt, rest) => .ph ty fmt :: parseSegs n rest
    | none => .lit c :: parseSegs n cs

/-- Parses a full line into literal and placeholder segments. -/
def parseLineSegs (l : String) : List Seg :=
  parseSegs l.data.length l.data

/-- The placeholders occurring in a line, in order. -/
def placeholders (l : String) : List (String × Option String) :=
  (parseLineSegs l).filterMap fun s =>
    match s with
    | .ph t f => some (t, f)
    | .lit _ => none

/-- Folds the segments back into text, resolving each placeholder; the Bool
is the hasUndefinedValue flag of the source, set when any resolver call
returns none (the callback returns the empty string in that case). -/
def renderSegs (res : String → Option String → Option String) : List Seg → String × Bool
  | [] => ("", false)
  | .lit c :: rest =>
    let p := renderSegs res rest
    (String.singleton c ++ p.1, p.2)
  | .ph ty fmt :: rest =>
    let p := renderSegs res rest
    match res ty fmt with
    | some r => (r ++ p.1, p.2)
    | none => (p.1, true)

/-- Renders one line: processed text plus the hasUndefinedValue flag. -/
def renderLine (res : String → Option String → Option String) (l : String) : String × Bool :=
  renderSegs res (parseLineSegs l)

/-- Model of parseInt(format.split(":")[1]) || 6 in the precision branch:
the digits after the first colon, defaulting to 6 when absent,
unparseable, or zero. -/
def precisionOf (fmt : String) : Nat :=
  let afterColon := (fmt.data.dropWhile (fun c => c ≠ ':')).drop 1
  let digits := afterColon.takeWhile Char.isDigit
  let parsed := if digits = [] then 0 else (⟨digits⟩ : String).toNat!
  if parsed = 0 then 6 else parsed

/-- The coordinate formatting of the coordinate placeholder case. -/
def coordFormat (lat lng : ℚ) (fmt : Option String) : String :=
  match fmt with
  | some f =>
    if f = "dms" then convertToDMS lat true ++ ", " ++ convertToDMS lng false
    else if strIncludes f "precision" then
      ratToFixed lat (precisionOf f) ++ ", " ++ ratToFixed lng (precisionOf f)
    else ratToFixed lat 6 ++ ", " ++ ratToFixed lng 6
  | none => ratToFixed lat 6 ++ ", " ++ ratToFixed lng 6

/-- The per-placeholder resolution of the switch statement in
injectMetadataInfo.  A result of none corresponds to the branches that set
hasUndefinedValue and return the empty string: a falsy timestamp, a falsy
latitude or longitude, a falsy barcode or caption, and the default branch
looking up a key the metadata object does not carry. -/
def resolveMeta (dp : DatePlatform) (m : PhotoMetadata) (ty : String) (fmt : Option String) : Option String :=
  if ty = "timestamp" then
    if m.timestamp = "" then none
    else
      match fmt with
      | some f => some (formatDate (dp.parse m.timestamp) f)
      | none => some (dp.locale (dp.parse m.timestamp))
  else if ty = "coordinate" then
    match m.coordinate with
    | none => none
    | some c =>
      match c.latitude, c.longitude with
      | some lat, some lng =>
        if lat = 0 ∨ lng = 0 then none
        else some (coordFormat lat lng fmt)
      | _, _ => none
  else if ty = "barcode" then
    match m.barcode with
    | none => none
    | some b => if b = "" then none else some b
  else if ty = "caption" then
    match m.caption with
    | none => none
    | some cap => if cap = "" then none else some cap
  else none

/-- Embedding of injectMetadataInfo: without metadata the array is returned
unchanged; otherwise each line is rendered, lines whose flag is set are
filtered out, and the processed text is extracted. -/
def injectMetadataInfo (dp : DatePlatform) (textArray : List String) (metadata : Option PhotoMetadata) : List String :=
  match metadata with
  | none => textArray
  | some m =>
    ((textArray.map (renderLine (resolveMeta dp m))).filter (fun p => !p.2)).map (·.1)

/-- The notion of an absent metadata field used by the resolution rule of
the specification: the field underlying the placeholder type is not present
on the metadata (for the always-present timestamp string, empty counts as
absent; a type outside the four known keys is never present). -/
def fieldAbsent (m : PhotoMetadata) (ty : String) : Prop :=
  (ty = "timestamp" ∧ m.timestamp = "")
    ∨ (ty = "coordinate" ∧ m.coordinate = none)
    ∨ (ty = "barcode" ∧ m.barcode = none)
    ∨ (ty = "caption" ∧ m.caption = none)
    ∨ (ty ≠ "timestamp" ∧ ty ≠ "coordinate" ∧ ty ≠ "barcode" ∧ ty ≠ "caption")

/-! ## Image processor output-size resolution (processImageInPlace in
src/unnamed/part_006, lines 43 to 110).  The embedding computes the output
canvas dimensions; the subsequent drawImage call of the source always draws
into the destination rectangle (0, 0, outputWidth, outputHeight), the whole
resized canvas. -/

inductive ScaleMode
  | cover
  | contain
  | stretch
deriving DecidableEq, Repr

structure OutputSizeCfg where
  width : Option ℚ
  height : Option ℚ
  maintainAspectRatio : Option Bool
  maxWidth : Option ℚ
  maxHeight : Option ℚ
  scaleMode : Option ScaleMode
deriving DecidableEq, Repr

/-- Embedding of the output-size resolution: exact dimensions, the
cover, contain or stretch adjustment when maintainAspectRatio is set and
both dimensions are given, then the max clamps.  Destructuring defaults
maintainAspectRatio to true and scaleMode to contain. -/
def computeOutputSize (srcW srcH : ℚ) (cfg : Option OutputSizeCfg) : ℚ × ℚ :=
  match cfg with
  | none => (srcW, srcH)
  | some o =>
    let mar := o.maintainAspectRatio.getD true
    let sm := o.scaleMode.getD .contain
    let step1 : ℚ × ℚ :=
      match o.width, o.height with
      | none, none => (srcW, srcH)
      | w?, h? =>
        let ow0 := w?.getD srcW
        let oh0 := h?.getD srcH
        if mar ∧ w?.isSome ∧ h?.isSome then
          let srcAspect := srcW / srcH
          let targetAspect := ow0 / oh0
          if sm = .cover then
            if targetAspect < srcAspect then (jsRound (oh0 * srcAspect), oh0)
            else (ow0, jsRound (ow0 / srcAspect))
          else if sm = .contain then
            if targetAspect < srcAspect then (ow0, jsRound (ow0 / srcAspect))
            else (jsRound (oh0 * srcAspect), oh0)
          else (ow0, oh0)
        else (ow0, oh0)
    let step2 : ℚ × ℚ :=
      match o.maxWidth with
      | some mw =>
        if mw < step1.1 then (mw, if mar then jsRound (mw * (srcH / srcW)) else step1.2)
        else step1
      | none => step1
    match o.maxHeight with
    | some mh =>
      if mh < step2.2 then ((if mar then jsRound (mh * (srcW / srcH)) else step2.1), mh)
      else step2
    | none => step2

/-! ## Device classification (loadVideoDevices in CameraView.vue, lines 548
to 609 of the concatenated source; the isMainCamera expression is identical
in the capabilities branch and in the label-fallback branch). -/

inductive FacingMode
  | user
  | environment
deriving DecidableEq, Repr

/-- Embedding of the isMainCamera expression on an already lower-cased
label: includes main, or wide, or the character 0, or none of ultra, tele
and zoom. -/
def isMainCameraLabel (l : String) : Bool :=
  strIncludes l "main" || strIncludes l "wide" || strIncludes l "0"
    || (!strIncludes l "ultra" && !strIncludes l "tele" && !strIncludes l "zoom")

/-- Embedding of the label-fallback classification: facing mode from label
keywords, and isMainCamera computed only in the environment branch. -/
def classifyDeviceLabel (label : String) : Option FacingMode × Bool :=
  let l := toLowerStr label
  if strIncludes l "front" || strIncludes l "user" || strIncludes l "selfie" then
    (some .user, false)
  else if strIncludes l "back" || strIncludes l "rear" || strIncludes l "environment" then
    (some .environment, isMainCameraLabel l)
  else
    (none, false)

/-! ## Barcode scanning loops (src/src/utils/barcode.ts).  The loops are
cooperative: one detection attempt per animation tick.  A frame source is
modelled as the per-tick outcome of detector.detect: an error, or a list of
decoded symbols.  The trace functions return the value the corresponding
promise has settled with within the first n ticks, or none while pending. -/

/-- Embedding of scanBarcodeUntilFound: the first tick with a nonempty
detection resolves with the first symbol, the first detector error rejects,
and otherwise the promise stays pending. -/
def scanUntilFoundResult (detect : Nat → Except String (List String)) : Nat → Option (Except String String)
  | 0 => none
  | n + 1 =>
    match scanUntilFoundResult detect n with
    | some r => some r
    | none =>
      match detect n with
      | .error e => some (.error e)
      | .ok [] => none
      | .ok (v :: _) => some (.ok v)

/-- Embedding of scanBarcodeWithTimeout: the timer resolves the promise with
null (modelled some none) once the timeout tick is reached; detector errors
are only logged and scanning continues; a nonempty detection before the
timeout resolves with the symbol. -/
def scanWithTimeoutResult (detect : Nat → Except String (List String)) (timeoutTicks : Nat) : Nat → Option (Option String)
  | 0 => none
  | n + 1 =>
    match scanWithTimeoutResult detect timeoutTicks n with
    | some r => some r
    | none =>
      if timeoutTicks ≤ n then some none
      else
        match detect n with
        | .error _ => none
        | .ok [] => none
        | .ok (v :: _) => some (some v)

/-- A frame source that never yields a symbol and never errors. -/
def detectNever : Nat → Except String (List String) := fun _ => .ok []

/-! ## Capture session (CameraView.vue).  The session state collects the
reactive refs the claims are about: showCamera and showGallery, the
captured photo list, whether the resolver of the open() promise is still
installed (resolveFn not null), the record of values the promise resolution
was invoked with, whether the stream tracks are live, and the caption
modal state.  The video element exists exactly while showCamera is true
(the v-if in the template), so stopCamera reaches the stream only then. -/

inductive CameraMode
  | singlePhoto
  | multiplePhotos
  | barcode
deriving DecidableEq, Repr

structure SessCfg where
  mode : CameraMode
  captionEnabled : Bool
  geolocationEnabled : Bool
deriving DecidableEq, Repr

structure Photo where
  src : String
  metadata : PhotoMetadata
deriving DecidableEq, Repr

structure SessionState where
  showCamera : Bool
  showGallery : Bool
  capturedPhotos : List Photo
  pending : Bool
  resolutions : List (List Photo)
  tracksLive : Bool
  showCaptionModal : Bool
  currentCaptionPhoto : Option Photo
deriving DecidableEq, Repr

/-- Embedding of stopCamera: videoRef.srcObject is reachable only while the
video element is mounted, which the v-if ties to showCamera; otherwise the
call is a no-op and the tracks stay live. -/
def stopCamera (s : SessionState) : SessionState :=
  if s.showCamera then { s with tracksLive := false } else s

/-- Embedding of closeCamera: stop the stream, hide camera and gallery,
invoke the installed resolver with the selected photos (recorded in
resolutions), and clear the resolver. -/
def closeCamera (selected : List Photo) (s : SessionState) : SessionState :=
  let s1 := stopCamera s
  { s1 with
    showCamera := false
    showGallery := false
    resolutions := s1.resolutions ++ (if s1.pending then [selected] else [])
    pending := false }

/-- Embedding of takePhoto.  The geolocation outcome and the canvas
encoding are platform inputs.  On a geolocation rejection the catch block
logs, alerts and calls closeCamera with an empty selection, then execution
continues: the metadata is still built (the coordinate object is always
assigned, with undefined members on failure) and the photo is returned. -/
def takePhoto (cfg : SessCfg) (geo : Except String (ℚ × ℚ)) (barcode : Option String)
    (ts src : String) (s : SessionState) : SessionState × Photo :=
  let s1 :=
    if cfg.geolocationEnabled then
      match geo with
      | .error _ => closeCamera [] s
      | .ok _ => s
    else s
  let coord : Coordinate :=
    if cfg.geolocationEnabled then
      match geo with
      | .ok p => ⟨some p.1, some p.2⟩
      | .error _ => ⟨none, none⟩
    else ⟨none, none⟩
  let bc : Option String :=
    match barcode with
    | some b => if b = "" then none else some b
    | none => none
  (s1, { src := src, metadata := { timestamp := ts, coordinate := some coord, barcode := bc, caption := none } })

/-- Embedding of finalizeCapture: in single-photo and barcode modes the
session closes with the photo as the sole selection, and in every mode the
photo is appended to capturedPhotos afterwards. -/
def finalizeCapture (cfg : SessCfg) (photo : Photo) (s : SessionState) : SessionState :=
  let s1 := if cfg.mode = .singlePhoto ∨ cfg.mode = .barcode then closeCamera [photo] s else s
  { s1 with capturedPhotos := s1.capturedPhotos ++ [photo] }

/-- Embedding of capture: take the photo, then either open the caption
modal (when a caption step is configured) or finalize immediately. -/
def capture (cfg : SessCfg) (geo : Except String (ℚ × ℚ)) (barcode : Option String)
    (ts src : String) (s : SessionState) : SessionState :=
  let p := takePhoto cfg geo barcode ts src s
  if cfg.captionEnabled then
    { p.1 with currentCaptionPhoto := some p.2, showCaptionModal := true }
  else
    finalizeCapture cfg p.2 p.1

/-- Embedding of the close button of the template: its click handler only
assigns showCamera = false; the showCamera watcher body adjusts the
viewport meta tag and touch listeners and touches neither the stream nor
the resolver. -/
def closeButtonClick (s : SessionState) : SessionState :=
  { s with showCamera := false }

/-- The state right after open() has returned its pending promise in a
photo mode: camera live and shown, resolver installed, nothing resolved. -/
def openedState : SessionState :=
  { showCamera := true
    showGallery := false
    capturedPhotos := []
    pending := true
    resolutions := []
    tracksLive := true
    showCaptionModal := false
    currentCaptionPhoto := none }

/-- Concrete Date parse and locale outputs used to instantiate the platform
inputs in scenario conjuncts and witnesses: May 6 2024, 10:20:30. -/
def demoDate : DateRec := ⟨2024, 4, 6, 10, 20, 30⟩

/-- A concrete platform whose parser returns demoDate for every string. -/
def demoPlatform : DatePlatform := ⟨fun _ => demoDate, fun _ => "5/6/2024, 10:20:30 AM"⟩

/-! ## Helper lemmas -/

theorem dmsDegrees_neg (x : ℚ) : dmsDegrees (-x) = dmsDegrees x := by
  unfold dmsDegrees
  rw [abs_neg]

theorem dmsMinutesNT_neg (x : ℚ) : dmsMinutesNT (-x) = dmsMinutesNT x := by
  unfold dmsMinutesNT
  rw [abs_neg, dmsDegrees_neg]

theorem dmsMinutes_neg (x : ℚ) : dmsMinutes (-x) = dmsMinutes x := by
  unfold dmsMinutes
  rw [dmsMinutesNT_neg]

theorem dmsSeconds_neg (x : ℚ) : dmsSeconds (-x) = dmsSeconds x := by
  unfold dmsSeconds
  rw [dmsMinutesNT_neg, dmsMinutes_neg]

theorem dmsBody_neg (x : ℚ) : dmsBody (-x) = dmsBody x := by
  unfold dmsBody
  rw [dmsDegrees_neg, dmsMinutes_neg, dmsSeconds_neg]

/-- Claim C7: for a positive magnitude, the DMS conversions of the positive
and the negated coordinate share all degree, minute and second digits and
differ exactly in the hemisphere letter, N against S for latitude and E
against W for longitude. -/
theorem convertToDMS_sign_symmetry (x : ℚ) (hx : 0 < x) :
    dmsDegrees (-x) = dmsDegrees x ∧ dmsMinutes (-x) = dmsMinutes x
      ∧ dmsSeconds (-x) = dmsSeconds x
      ∧ convertToDMS x true = dmsBody x ++ "N"
      ∧ convertToDMS (-x) true = dmsBody x ++ "S"
      ∧ convertToDMS x false = dmsBody x ++ "E"
      ∧ convertToDMS (-x) false = dmsBody x ++ "W" := by
  have hneg : ¬(0 ≤ -x) := by
    rw [not_le]
    exact neg_neg_of_pos hx
  refine ⟨dmsDegrees_neg x, dmsMinutes_neg x, dmsSeconds_neg x, ?_, ?_, ?_, ?_⟩
  · simp [convertToDMS, dmsDirection, hx.le]
  · simp [convertToDMS, dmsDirection, hneg, dmsBody_neg]
  · simp [convertToDMS, dmsDirection, hx.le]
  · simp [convertToDMS, dmsDirection, hneg, dmsBody_neg]

/-- Witness for claim C7 at the concrete magnitude 2. -/
theorem convertToDMS_sign_symmetry_witness :
    0 < (2 : ℚ)
      ∧ (dmsDegrees (-(2 : ℚ)) = dmsDegrees (2 : ℚ)
        ∧ dmsMinutes (-(2 : ℚ)) = dmsMinutes (2 : ℚ)
        ∧ dmsSeconds (-(2 : ℚ)) = dmsSeconds (2 : ℚ)
        ∧ convertToDMS (2 : ℚ) true = dmsBody (2 : ℚ) ++ "N"
        ∧ convertToDMS (-(2 : ℚ)) true = dmsBody (2 : ℚ) ++ "S"
        ∧ convertToDMS (2 : ℚ) false = dmsBody (2 : ℚ) ++ "E"
        ∧ convertToDMS (-(2 : ℚ)) false = dmsBody (2 : ℚ) ++ "W") :=
  ⟨by decide, convertToDMS_sign_symmetry 2 (by decide)⟩

/-- Claim C8 counterexample: for the percent unit with the negative value
-100, growing the reference dimension from 1 to 2 strictly decreases the
converted pixel result, so the conversion is not monotonically increasing
in the reference dimension for every value. -/
theorem convertElementSizeToPixels_not_monotone :
    convertElementSizeToPixels ⟨1000, 800⟩ ⟨.pct, -100⟩ 2
      < convertElementSizeToPixels ⟨1000, 800⟩ ⟨.pct, -100⟩ 1 := by
  norm_num [convertElementSizeToPixels]

/-- Claim C8 as amended: converting a px size returns exactly the stored
value; for a nonnegative value the percent conversion is monotone
non-decreasing in the reference dimension; and the viewport conversions do
not depend on the reference dimension at all (they read the window inner
dimensions), hence are trivially non-decreasing in it. -/
theorem convertElementSizeToPixels_px_exact_and_monotone
    (win : WindowDims) (v r r1 r2 : ℚ) (hv : 0 ≤ v) (hr : r1 ≤ r2) :
    convertElementSizeToPixels win ⟨.px, v⟩ r = v
      ∧ convertElementSizeToPixels win ⟨.pct, v⟩ r1 ≤ convertElementSizeToPixels win ⟨.pct, v⟩ r2
      ∧ convertElementSizeToPixels win ⟨.vh, v⟩ r1 = convertElementSizeToPixels win ⟨.vh, v⟩ r2
      ∧ convertElementSizeToPixels win ⟨.vw, v⟩ r1 = convertElementSizeToPixels win ⟨.vw, v⟩ r2 := by
  refine ⟨rfl, ?_, rfl, rfl⟩
  show v / 100 * r1 ≤ v / 100 * r2
  have h100 : (0 : ℚ) ≤ v / 100 := by positivity
  exact mul_le_mul_of_nonneg_left hr h100

/-- Witness for the amended claim C8 at value 50 and reference dimensions
10 and 20. -/
theorem convertElementSizeToPixels_px_exact_and_monotone_witness :
    (0 : ℚ) ≤ 50 ∧ (10 : ℚ) ≤ 20
      ∧ (convertElementSizeToPixels ⟨1000, 800⟩ ⟨.px, 50⟩ 10 = 50
        ∧ convertElementSizeToPixels ⟨1000, 800⟩ ⟨.pct, 50⟩ 10
            ≤ convertElementSizeToPixels ⟨1000, 800⟩ ⟨.pct, 50⟩ 20
        ∧ convertElementSizeToPixels ⟨1000, 800⟩ ⟨.vh, 50⟩ 10
            = convertElementSizeToPixels ⟨1000, 800⟩ ⟨.vh, 50⟩ 20
        ∧ convertElementSizeToPixels ⟨1000, 800⟩ ⟨.vw, 50⟩ 10
            = convertElementSizeToPixels ⟨1000, 800⟩ ⟨.vw, 50⟩ 20) :=
  ⟨by decide, by decide,
    convertElementSizeToPixels_px_exact_and_monotone ⟨1000, 800⟩ 50 10 10 20 (by decide) (by decide)⟩

/-- Claim C9: on a 4000 by 3000 source with outputSize width 800, height
600, scaleMode cover and maintainAspectRatio true, the resolved output
canvas dimensions are exactly 800 by 600; moreover the resolved dimensions
have the same aspect ratio as the source, so drawing the full source into
the full destination rectangle (0, 0, outputWidth, outputHeight) of the
source covers the whole canvas with uniform scale and without letterboxing
or padding. -/
theorem computeOutputSize_cover_scenario :
    computeOutputSize 4000 3000 (some ⟨some 800, some 600, some true, none, none, some .cover⟩)
        = (800, 600)
      ∧ (computeOutputSize 4000 3000 (some ⟨some 800, some 600, some true, none, none, some .cover⟩)).1 * 3000
        = (computeOutputSize 4000 3000 (some ⟨some 800, some 600, some true, none, none, some .cover⟩)).2 * 4000 := by
  constructor
  · norm_num [computeOutputSize, jsRound]
  · norm_num [computeOutputSize, jsRound]

/-- Claim C6 counterexample: the label back ultra wide contains both ultra
and wide, yet the classification marks it as a main camera, because the
source computes isMainCamera as a disjunction in which wide alone wins,
not as a conjunction with an auxiliary-lens exclusion. -/
theorem classifyDeviceLabel_ultra_wide_is_main :
    classifyDeviceLabel "back ultra wide" = (some .environment, true)
      ∧ strIncludes (toLowerStr "back ultra wide") "ultra" = true
      ∧ strIncludes (toLowerStr "back ultra wide") "wide" = true := by
  decide

/-- Claim C6 as amended: for a label that the fallback classifies as
environment facing, isMainCamera is true exactly when the lower-cased label
contains main, or contains wide, or contains the character 0 anywhere, or
contains none of ultra, tele and zoom; macro and depth are never consulted,
and the inclusion disjuncts are not guarded by the exclusion conjunct. -/
theorem classifyDeviceLabel_main_characterization (label : String)
    (hfront : (strIncludes (toLowerStr label) "front" || strIncludes (toLowerStr label) "user"
        || strIncludes (toLowerStr label) "selfie") = false)
    (hback : (strIncludes (toLowerStr label) "back" || strIncludes (toLowerStr label) "rear"
        || strIncludes (toLowerStr label) "environment") = true) :
    (classifyDeviceLabel label).2 = true ↔
      (strIncludes (toLowerStr label) "main" = true ∨ strIncludes (toLowerStr label) "wide" = true
        ∨ strIncludes (toLowerStr label) "0" = true
        ∨ (strIncludes (toLowerStr label) "ultra" = false ∧ strIncludes (toLowerStr label) "tele" = false
            ∧ strIncludes (toLowerStr label) "zoom" = false)) := by
  simp only [classifyDeviceLabel, hfront, hback, isMainCameraLabel, Bool.false_eq_true, if_false,
    if_true, Bool.or_eq_true, Bool.and_eq_true, Bool.not_eq_true']
  tauto

/-- Witness for the amended claim C6 at the label back ultra wide. -/
theorem classifyDeviceLabel_main_characterization_witness :
    (strIncludes (toLowerStr "back ultra wide") "front" || strIncludes (toLowerStr "back ultra wide") "user"
        || strIncludes (toLowerStr "back ultra wide") "selfie") = false
      ∧ (strIncludes (toLowerStr "back ultra wide") "back" || strIncludes (toLowerStr "back ultra wide") "rear"
        || strIncludes (toLowerStr "back ultra wide") "environment") = true
      ∧ ((classifyDeviceLabel "back ultra wide").2 = true ↔
        (strIncludes (toLowerStr "back ultra wide") "main" = true
          ∨ strIncludes (toLowerStr "back ultra wide") "wide" = true
          ∨ strIncludes (toLowerStr "back ultra wide") "0" = true
          ∨ (strIncludes (toLowerStr "back ultra wide") "ultra" = false
            ∧ strIncludes (toLowerStr "back ultra wide") "tele" = false
            ∧ strIncludes (toLowerStr "back ultra wide") "zoom" = false))) :=
  ⟨by decide, by decide,
    classifyDeviceLabel_main_characterization "back ultra wide" (by decide) (by decide)⟩

theorem scanUntilFoundResult_never (n : Nat) :
    scanUntilFoundResult detectNever n = none := by
  induction n with
  | zero => rfl
  | succ m ih => simp [scanUntilFoundResult, ih, detectNever]

theorem scanWithTimeoutResult_never_pending (t : Nat) :
    ∀ m, m ≤ t → scanWithTimeoutResult detectNever t m = none := by
  intro m
  induction m with
  | zero => intro _; rfl
  | succ k ih =>
    intro h
    have hk : k ≤ t := Nat.le_of_succ_le h
    have hlt : ¬(t ≤ k) := by omega
    simp [scanWithTimeoutResult, ih hk, hlt, detectNever]

theorem scanWithTimeoutResult_never_fires (t k : Nat) :
    scanWithTimeoutResult detectNever t (t + 1 + k) = some none := by
  induction k with
  | zero =>
    show scanWithTimeoutResult detectNever t (t + 1) = some none
    simp [scanWithTimeoutResult, scanWithTimeoutResult_never_pending t t le_rfl]
  | succ j ih =>
    have harith : t + 1 + (j + 1) = (t + 1 + j) + 1 := by omega
    rw [harith]
    simp [scanWithTimeoutResult, ih]

/-- Claim C5 counterexample: the barcode loop that open() actually uses,
scanBarcodeUntilFound, has no timeout: against a frame source that never
yields a symbol, its promise is still unsettled at tick 2000 (the claimed
timeout) and still unsettled at tick 5000, so the result future has not
resolved with an empty array when the timeout elapsed and is left
unresolved. -/
theorem scanUntilFoundResult_never_counterexample :
    scanUntilFoundResult detectNever 2000 = none
      ∧ scanUntilFoundResult detectNever 5000 = none :=
  ⟨scanUntilFoundResult_never 2000, scanUntilFoundResult_never 5000⟩

/-- Claim C5 as amended: the open() barcode path invokes
scanBarcodeUntilFound, which consults no timeout, so against a source that
never yields a symbol it stays pending at every tick and the open() future
is never resolved; the unused helper scanBarcodeWithTimeout, if it were
invoked with a timeout of 2000 ticks, would resolve with null (not a
rejection and not an empty photo array) at every tick from the timeout on. -/
theorem scanBarcode_timeout_behavior (n : Nat) :
    scanUntilFoundResult detectNever n = none
      ∧ scanWithTimeoutResult detectNever 2000 (2001 + n) = some none := by
  constructor
  · exact scanUntilFoundResult_never n
  · have h := scanWithTimeoutResult_never_fires 2000 n
    have harith : 2000 + 1 + n = 2001 + n := by omega
    rwa [harith] at h

/-- Claim C1: in single-photo mode without a caption step, starting from any
state in which the open() promise is pending and the camera is live, one
capture (with the default geolocation lookup succeeding) resolves the
promise exactly once with an array holding exactly the one captured photo,
and the same capture closes the session: closeCamera runs, the camera view
is hidden and the stream tracks are stopped. -/
theorem capture_single_photo_resolves_once (la lo : ℚ) (ts src : String) (s : SessionState)
    (hp : s.pending = true) (hc : s.showCamera = true) :
    (capture ⟨.singlePhoto, false, true⟩ (.ok (la, lo)) none ts src s).resolutions
        = s.resolutions ++ [[⟨src, ⟨ts, some ⟨some la, some lo⟩, none, none⟩⟩]]
      ∧ (capture ⟨.singlePhoto, false, true⟩ (.ok (la, lo)) none ts src s).pending = false
      ∧ (capture ⟨.singlePhoto, false, true⟩ (.ok (la, lo)) none ts src s).tracksLive = false
      ∧ (capture ⟨.singlePhoto, false, true⟩ (.ok (la, lo)) none ts src s).showCamera = false := by
  simp [capture, takePhoto, finalizeCapture, closeCamera, stopCamera, hp, hc]

/-- Witness for claim C1 at the freshly opened state with a concrete
geolocation fix, timestamp and encoded frame. -/
theorem capture_single_photo_resolves_once_witness :
    openedState.pending = true ∧ openedState.showCamera = true
      ∧ ((capture ⟨.singlePhoto, false, true⟩ (.ok (1, 2)) none "t" "d" openedState).resolutions
          = openedState.resolutions ++ [[⟨"d", ⟨"t", some ⟨some 1, some 2⟩, none, none⟩⟩]]
        ∧ (capture ⟨.singlePhoto, false, true⟩ (.ok (1, 2)) none "t" "d" openedState).pending = false
        ∧ (capture ⟨.singlePhoto, false, true⟩ (.ok (1, 2)) none "t" "d" openedState).tracksLive = false
        ∧ (capture ⟨.singlePhoto, false, true⟩ (.ok (1, 2)) none "t" "d" openedState).showCamera = false) :=
  ⟨rfl, rfl, capture_single_photo_resolves_once 1 2 "t" "d" openedState rfl rfl⟩

/-- Claim C2 counterexample: with geolocation enabled and the lookup
rejecting, a capture from the freshly opened single-photo session resolves
the open() future with the empty array and closes the session (camera
hidden, tracks stopped), so the photo is suppressed from the result; the
photo is only appended to the internal list, and there its coordinate is
not omitted but present with undefined members. -/
theorem capture_geolocation_failure_closes_session :
    (capture ⟨.singlePhoto, false, true⟩ (.error "denied") none "t" "d" openedState).resolutions = [[]]
      ∧ (capture ⟨.singlePhoto, false, true⟩ (.error "denied") none "t" "d" openedState).showCamera = false
      ∧ (capture ⟨.singlePhoto, false, true⟩ (.error "denied") none "t" "d" openedState).tracksLive = false
      ∧ (capture ⟨.singlePhoto, false, true⟩ (.error "denied") none "t" "d" openedState).pending = false
      ∧ (capture ⟨.singlePhoto, false, true⟩ (.error "denied") none "t" "d" openedState).capturedPhotos
        = [⟨"d", ⟨"t", some ⟨none, none⟩, none, none⟩⟩] :=
  ⟨rfl, rfl, rfl, rfl, rfl⟩

/-- Claim C2 as amended: when the geolocation lookup rejects during a
capture, the failure is logged and alerted and the catch block calls
closeCamera with an empty selection: the session closes (camera hidden,
tracks stopped) and the pending open() future resolves with an empty
array; the photo is nevertheless still taken and appended to the internal
capturedPhotos list, carrying a coordinate object whose latitude and
longitude are undefined, but it is not delivered through the future. -/
theorem capture_geolocation_failure_behavior (e ts src : String) (s : SessionState)
    (hp : s.pending = true) (hc : s.showCamera = true) :
    (capture ⟨.singlePhoto, false, true⟩ (.error e) none ts src s).resolutions
        = s.resolutions ++ [[]]
      ∧ (capture ⟨.singlePhoto, false, true⟩ (.error e) none ts src s).pending = false
      ∧ (capture ⟨.singlePhoto, false, true⟩ (.error e) none ts src s).showCamera = false
      ∧ (capture ⟨.singlePhoto, false, true⟩ (.error e) none ts src s).tracksLive = false
      ∧ (capture ⟨.singlePhoto, false, true⟩ (.error e) none ts src s).capturedPhotos
        = s.capturedPhotos ++ [⟨src, ⟨ts, some ⟨none, none⟩, none, none⟩⟩] := by
  simp [capture, takePhoto, finalizeCapture, closeCamera, stopCamera, hp, hc]

/-- Witness for the amended claim C2 at the freshly opened state. -/
theorem capture_geolocation_failure_behavior_witness :
    openedState.pending = true ∧ openedState.showCamera = true
      ∧ ((capture ⟨.singlePhoto, false, true⟩ (.error "e") none "ts" "src" openedState).resolutions
          = openedState.resolutions ++ [[]]
        ∧ (capture ⟨.singlePhoto, false, true⟩ (.error "e") none "ts" "src" openedState).pending = false
        ∧ (capture ⟨.singlePhoto, false, true⟩ (.error "e") none "ts" "src" openedState).showCamera = false
        ∧ (capture ⟨.singlePhoto, false, true⟩ (.error "e") none "ts" "src" openedState).tracksLive = false
        ∧ (capture ⟨.singlePhoto, false, true⟩ (.error "e") none "ts" "src" openedState).capturedPhotos
          = openedState.capturedPhotos ++ [⟨"src", ⟨"ts", some ⟨none, none⟩, none, none⟩⟩]) :=
  ⟨rfl, rfl, capture_geolocation_failure_behavior "e" "ts" "src" openedState rfl rfl⟩

/-- Claim C4, evaluation at the failing input: clicking the close button of
the template while the open() promise is pending only assigns showCamera
false; the resolver stays installed with nothing ever resolved, the stream
tracks stay live, and because the video element is unmounted by the v-if, a
subsequent closeCamera can no longer reach the stream to stop its tracks. -/
theorem closeButtonClick_leaves_pending_and_tracks_live :
    (closeButtonClick openedState).pending = true
      ∧ (closeButtonClick openedState).tracksLive = true
      ∧ (closeButtonClick openedState).resolutions = []
      ∧ (closeButtonClick openedState).showCamera = false
      ∧ (closeCamera [] (closeButtonClick openedState)).tracksLive = true :=
  ⟨rfl, rfl, rfl, rfl, rfl⟩

theorem mem_placeholders {t : String} {f : Option String} {l : String} :
    (t, f) ∈ placeholders l ↔ Seg.ph t f ∈ parseLineSegs l := by
  constructor
  · intro h
    rcases List.mem_filterMap.mp h with ⟨s, hs, hmatch⟩
    cases s with
    | lit c => simp at hmatch
    | ph t0 f0 =>
      simp at hmatch
      rwa [hmatch.1, hmatch.2] at hs
  · intro h
    exact List.mem_filterMap.mpr ⟨Seg.ph t f, h, rfl⟩

/-- The hasUndefinedValue flag of a rendered line is set exactly when some
placeholder of the line fails to resolve. -/
theorem renderSegs_flag_iff (res : String → Option String → Option String) (segs : List Seg) :
    (renderSegs res segs).2 = true ↔ ∃ t f, Seg.ph t f ∈ segs ∧ res t f = none := by
  induction segs with
  | nil => simp [renderSegs]
  | cons hd tl ih =>
    cases hd with
    | lit c =>
      simp only [renderSegs, List.mem_cons]
      rw [ih]
      constructor
      · rintro ⟨t, f, hmem, hres⟩
        exact ⟨t, f, Or.inr hmem, hres⟩
      · rintro ⟨t, f, hmem, hres⟩
        rcases hmem with heq | hmem
        · exact absurd heq (by simp)
        · exact ⟨t, f, hmem, hres⟩
    | ph t0 f0 =>
      cases hres : res t0 f0 with
      | none =>
        simp only [renderSegs, hres, List.mem_cons]
        constructor
        · intro _
          exact ⟨t0, f0, Or.inl rfl, hres⟩
        · intro _
          trivial
      | some r =>
        simp only [renderSegs, hres, List.mem_cons]
        rw [ih]
        constructor
        · rintro ⟨t, f, hmem, hr⟩
          exact ⟨t, f, Or.inr hmem, hr⟩
        · rintro ⟨t, f, hmem, hr⟩
          rcases hmem with heq | hmem
          · cases heq
            rw [hres] at hr
            exact absurd hr (by simp)
          · exact ⟨t, f, hmem, hr⟩

/-- An absent metadata field makes the corresponding placeholder type
unresolvable for every format. -/
theorem fieldAbsent_resolveMeta_none (dp : DatePlatform) (m : PhotoMetadata) (t : String)
    (f : Option String) (h : fieldAbsent m t) : resolveMeta dp m t f = none := by
  rcases h with ⟨ht, he⟩ | ⟨ht, he⟩ | ⟨ht, he⟩ | ⟨ht, he⟩ | ⟨h1, h2, h3, h4⟩
  · subst ht
    simp [resolveMeta, he]
  · subst ht
    simp [resolveMeta, he]
  · subst ht
    simp [resolveMeta, he]
  · subst ht
    simp [resolveMeta, he]
  · simp [resolveMeta, h1, h2, h3, h4]

/-- A line holding an unresolvable placeholder is filtered out whole. -/
theorem line_dropped (dp : DatePlatform) (m : PhotoMetadata) (l : String)
    (t : String) (f : Option String) (hmem : (t, f) ∈ placeholders l)
    (hnone : resolveMeta dp m t f = none) :
    injectMetadataInfo dp [l] (some m) = [] := by
  have hflag : (renderLine (resolveMeta dp m) l).2 = true := by
    rw [renderLine, renderSegs_flag_iff]
    exact ⟨t, f, mem_placeholders.mp hmem, hnone⟩
  simp [injectMetadataInfo, List.filter, hflag]

/-- A line all of whose placeholders resolve survives, with the
placeholders replaced by their resolved values. -/
theorem line_kept (dp : DatePlatform) (m : PhotoMetadata) (l : String)
    (hall : ∀ t f, (t, f) ∈ placeholders l → resolveMeta dp m t f ≠ none) :
    injectMetadataInfo dp [l] (some m) = [(renderLine (resolveMeta dp m) l).1] := by
  have hflag : (renderLine (resolveMeta dp m) l).2 = false := by
    cases hb : (renderLine (resolveMeta dp m) l).2
    · rfl
    · exfalso
      rw [renderLine, renderSegs_flag_iff] at hb
      rcases hb with ⟨t, f, hmem, hnone⟩
      exact hall t f (mem_placeholders.mpr hmem) hnone
  simp [injectMetadataInfo, List.filter, hflag]

/-- A coordinate that is present but has a zero latitude or longitude fails
the JS falsiness guard of the coordinate case, so the placeholder is
unresolvable. -/
theorem resolveMeta_coordinate_zero (dp : DatePlatform) (m : PhotoMetadata) (c : Coordinate)
    (f : Option String) (hc : m.coordinate = some c)
    (hz : c.latitude = some 0 ∨ c.longitude = some 0) :
    resolveMeta dp m "coordinate" f = none := by
  have h1 : ¬("coordinate" = "timestamp") := by decide
  simp only [resolveMeta, if_neg h1, if_pos rfl, hc]
  rcases hz with hla | hlo
  · rw [hla]
    cases hlg : c.longitude with
    | none => rfl
    | some v => simp
  · rw [hlo]
    cases hla2 : c.latitude with
    | none => rfl
    | some u => simp

/-- Claim C3: a line holding a placeholder whose underlying metadata field
is absent is excluded whole from the template engine output; a line all of
whose placeholders resolve appears in the output with the placeholders
replaced by their resolved values; and in particular the two-line
watermark of a timestamp line with format YYYY-MM-DD and a caption line,
against metadata lacking a caption, yields exactly the formatted timestamp
line. -/
theorem injectMetadataInfo_line_resolution (dp : DatePlatform) (m : PhotoMetadata) (l : String) :
    ((∃ t f, (t, f) ∈ placeholders l ∧ fieldAbsent m t) →
        injectMetadataInfo dp [l] (some m) = [])
      ∧ ((∀ t f, (t, f) ∈ placeholders l → resolveMeta dp m t f ≠ none) →
        injectMetadataInfo dp [l] (some m) = [(renderLine (resolveMeta dp m) l).1])
      ∧ injectMetadataInfo demoPlatform
          ["\x7b\x7btimestamp:YYYY-MM-DD\x7d\x7d", "\x7b\x7bcaption\x7d\x7d"]
          (some ⟨"2024-05-06T10:20:30Z", none, none, none⟩)
        = ["2024-05-06"] := by
  refine ⟨?_, ?_, by decide⟩
  · rintro ⟨t, f, hmem, habs⟩
    exact line_dropped dp m l t f hmem (fieldAbsent_resolveMeta_none dp m t f habs)
  · intro hall
    exact line_kept dp m l hall

/-- Witness for claim C3: the absent-caption line is dropped and the
all-resolved timestamp line is kept, at concrete inputs. -/
theorem injectMetadataInfo_line_resolution_witness :
    ((∃ t f, (t, f) ∈ placeholders "\x7b\x7bcaption\x7d\x7d"
          ∧ fieldAbsent ⟨"2024-05-06T10:20:30Z", none, none, none⟩ t)
      ∧ injectMetadataInfo demoPlatform ["\x7b\x7bcaption\x7d\x7d"]
          (some ⟨"2024-05-06T10:20:30Z", none, none, none⟩) = [])
    ∧ ((∀ t f, (t, f) ∈ placeholders "\x7b\x7btimestamp:YYYY-MM-DD\x7d\x7d" →
          resolveMeta demoPlatform ⟨"2024-05-06T10:20:30Z", none, none, none⟩ t f ≠ none)
      ∧ injectMetadataInfo demoPlatform ["\x7b\x7btimestamp:YYYY-MM-DD\x7d\x7d"]
          (some ⟨"2024-05-06T10:20:30Z", none, none, none⟩)
        = [(renderLine (resolveMeta demoPlatform ⟨"2024-05-06T10:20:30Z", none, none, none⟩)
            "\x7b\x7btimestamp:YYYY-MM-DD\x7d\x7d").1]) := by
  have habs : ∃ t f, (t, f) ∈ placeholders "\x7b\x7bcaption\x7d\x7d"
      ∧ fieldAbsent ⟨"2024-05-06T10:20:30Z", none, none, none⟩ t :=
    ⟨"caption", none, by decide, Or.inr (Or.inr (Or.inr (Or.inl ⟨rfl, rfl⟩)))⟩
  have hall : ∀ t f, (t, f) ∈ placeholders "\x7b\x7btimestamp:YYYY-MM-DD\x7d\x7d" →
      resolveMeta demoPlatform ⟨"2024-05-06T10:20:30Z", none, none, none⟩ t f ≠ none := by
    intro t f h
    have hph : placeholders "\x7b\x7btimestamp:YYYY-MM-DD\x7d\x7d"
        = [("timestamp", some "YYYY-MM-DD")] := by decide
    rw [hph] at h
    simp at h
    rw [h.1, h.2]
    decide
  exact ⟨⟨habs, (injectMetadataInfo_line_resolution demoPlatform
      ⟨"2024-05-06T10:20:30Z", none, none, none⟩ "\x7b\x7bcaption\x7d\x7d").1 habs⟩,
    ⟨hall, (injectMetadataInfo_line_resolution demoPlatform
      ⟨"2024-05-06T10:20:30Z", none, none, none⟩ "\x7b\x7btimestamp:YYYY-MM-DD\x7d\x7d").2.1 hall⟩⟩

/-- Claim C10: a line holding a coordinate placeholder is dropped whole
when the coordinate is present but its latitude or longitude is exactly 0,
because the JS falsiness guard of the coordinate case treats 0 like
undefined; the output is the same as with the coordinate absent. -/
theorem injectMetadataInfo_coordinate_zero_drops_line (dp : DatePlatform) (m : PhotoMetadata)
    (c : Coordinate) (l : String) (f : Option String) (hc : m.coordinate = some c)
    (hz : c.latitude = some 0 ∨ c.longitude = some 0)
    (hmem : ("coordinate", f) ∈ placeholders l) :
    injectMetadataInfo dp [l] (some m) = []
      ∧ injectMetadataInfo dp [l] (some m)
        = injectMetadataInfo dp [l] (some { m with coordinate := none }) := by
  have h1 : injectMetadataInfo dp [l] (some m) = [] :=
    line_dropped dp m l "coordinate" f hmem (resolveMeta_coordinate_zero dp m c f hc hz)
  have h2 : injectMetadataInfo dp [l] (some { m with coordinate := none }) = [] := by
    refine line_dropped dp { m with coordinate := none } l "coordinate" f hmem ?_
    have h3 : ¬("coordinate" = "timestamp") := by decide
    simp [resolveMeta, h3]
  exact ⟨h1, h1.trans h2.symm⟩

/-- Witness for claim C10 at a coordinate with zero latitude. -/
theorem injectMetadataInfo_coordinate_zero_drops_line_witness :
    (⟨"t", some ⟨some 0, some 5⟩, none, none⟩ : PhotoMetadata).coordinate = some ⟨some 0, some 5⟩
      ∧ ((⟨some 0, some 5⟩ : Coordinate).latitude = some 0
          ∨ (⟨some 0, some 5⟩ : Coordinate).longitude = some 0)
      ∧ ("coordinate", (none : Option String)) ∈ placeholders "\x7b\x7bcoordinate\x7d\x7d"
      ∧ (injectMetadataInfo demoPlatform ["\x7b\x7bcoordinate\x7d\x7d"]
            (some ⟨"t", some ⟨some 0, some 5⟩, none, none⟩) = []
        ∧ injectMetadataInfo demoPlatform ["\x7b\x7bcoordinate\x7d\x7d"]
            (some ⟨"t", some ⟨some 0, some 5⟩, none, none⟩)
          = injectMetadataInfo demoPlatform ["\x7b\x7bcoordinate\x7d\x7d"]
            (some ⟨"t", none, none, none⟩)) :=
  ⟨rfl, Or.inl rfl, by decide,
    injectMetadataInfo_coordinate_zero_drops_line demoPlatform
      ⟨"t", some ⟨some 0, some 5⟩, none, none⟩ ⟨some 0, some 5⟩
      "\x7b\x7bcoordinate\x7d\x7d" none rfl (Or.inl rfl) (by decide)⟩
